import Mathlib

/-
Verification of the connection-lifecycle / resilience engine of the
quantus-price-collector repository.

The definitions below are a shallow embedding of the relevant source code:

* `SubState`, `removeFromPendingResubscriptions`, `addToPendingResubscriptions`,
  `processSubscribeAck`, `handleBrokerConnectionError`, `resetStateAfterReconnect`
  embed the per-link subscription bookkeeping of
  `app/daemon/broker_daemon.py` (`BrokerDaemon`).
* `Breaker`, `runBrokerIteration` embed the circuit-breaker handling in
  `BrokerDaemon._run_broker_loop`.
* `calculateRequiredSessions`, `getSymbolsForSession` embed the symbol
  sharding helpers.
* `resubWaitTime`, `resubLoop`, `resubscribeMissingSymbols` embed
  `BrokerDaemon._resubscribe_missing_symbols`.
* `is_market_open`, `getCurrentMarketStateTimeBased` embed
  `app/schedule/date_utils.py` and `MarketScheduler.get_current_market_state`.
* `publish_raw_data` embeds `RedisService.publish_raw_data`.
* `subscribe_symbol`, `unsubscribe_symbol`, `get_ping_stats` embed
  `app/brokers/base.py` (`BrokerWebSocketClient`).

Symbols are modelled as an arbitrary type with decidable equality
(instantiated at `ℕ` for concrete runs); the per-link dictionaries of the
daemon are modelled per link, with a missing dictionary key read as the
empty set.
-/

/-- Per-link subscription bookkeeping of `BrokerDaemon`: the entries
`requested_symbols[link]`, `confirmed_symbols[link]` and
`pending_resubscriptions[link]` for one link. -/
structure SubState (α : Type) where
  requested : Finset α
  confirmed : Finset α
  pending : Finset α
  deriving DecidableEq

section SubscriptionState

variable {α : Type} [DecidableEq α]

/-- Embedding of `BrokerDaemon._remove_from_pending_resubscriptions`:
`removed = symbols & pending` is subtracted from the pending set. -/
def removeFromPendingResubscriptions (s : SubState α) (symbols : Finset α) :
    SubState α :=
  { s with pending := s.pending \ (symbols ∩ s.pending) }

/-- Embedding of `BrokerDaemon._add_to_pending_resubscriptions`: when the
daemon is running, the genuinely new symbols `symbols - pending` are merged
into the pending set (already-pending symbols are not touched); when the
daemon is not running the call returns immediately. -/
def addToPendingResubscriptions (running : Bool) (s : SubState α)
    (symbols : Finset α) : SubState α :=
  if running then
    if (symbols \ s.pending).Nonempty then
      { s with pending := s.pending ∪ (symbols \ s.pending) }
    else s
  else s

/-- Embedding of the missing-symbol check at the end of the
`subscribe_response` branch of `BrokerDaemon._process_broker_data`:
`missing = requested - ack` (the requested set minus the symbols of this
particular ack, not minus the accumulated confirmed set) is enqueued for
resubscription when nonempty. -/
def enqueueMissing (running : Bool) (s : SubState α) (ack : Finset α) :
    SubState α :=
  if (s.requested \ ack).Nonempty then
    addToPendingResubscriptions running s (s.requested \ ack)
  else s

/-- Embedding of the `subscribe_response` branch of
`BrokerDaemon._process_broker_data`, where `ack` is the set built from the
message's `tr_key` list: the accumulated confirmed set gains `ack`, the acked
symbols are removed from the pending set, and then `enqueueMissing` runs. -/
def processSubscribeAck (running : Bool) (s : SubState α) (ack : Finset α) :
    SubState α :=
  enqueueMissing running
    (removeFromPendingResubscriptions { s with confirmed := s.confirmed ∪ ack }
      ack) ack

/-- Embedding of the `BrokerConnectionError` handler of
`BrokerDaemon._run_broker_loop` (the direct reconnect path, within the
reconnect-attempt budget): the requested set is backed up, requested and
confirmed are cleared, and the backup is enqueued for resubscription. -/
def handleBrokerConnectionError (running : Bool) (s : SubState α) :
    SubState α :=
  if s.requested.Nonempty then
    addToPendingResubscriptions running
      { s with requested := ∅, confirmed := ∅ } s.requested
  else { s with requested := ∅, confirmed := ∅ }

/-- Embedding of the state reset performed by `BrokerDaemon._run_broker_loop`
right after a (re)connect succeeds, including the circuit-breaker HALF_OPEN
recovery path: `requested_symbols[link]` and `confirmed_symbols[link]` are
cleared, and `_initialize_resubscription_state` leaves the contents of the
pending set untouched (it only ensures the key exists and cancels a stale
retry task). -/
def resetStateAfterReconnect (s : SubState α) : SubState α :=
  { s with requested := ∅, confirmed := ∅ }

theorem removeFromPending_pending (s : SubState α) (symbols : Finset α) :
    (removeFromPendingResubscriptions s symbols).pending =
      s.pending \ symbols := by
  unfold removeFromPendingResubscriptions
  ext a
  simp only [Finset.mem_sdiff, Finset.mem_inter]
  tauto

theorem removeFromPending_requested (s : SubState α) (symbols : Finset α) :
    (removeFromPendingResubscriptions s symbols).requested = s.requested :=
  rfl

theorem removeFromPending_confirmed (s : SubState α) (symbols : Finset α) :
    (removeFromPendingResubscriptions s symbols).confirmed = s.confirmed :=
  rfl

theorem addToPending_pending (s : SubState α) (symbols : Finset α) :
    (addToPendingResubscriptions true s symbols).pending =
      s.pending ∪ symbols := by
  unfold addToPendingResubscriptions
  simp only [if_true]
  by_cases h : (symbols \ s.pending).Nonempty
  · rw [if_pos h]
    exact Finset.union_sdiff_self_eq_union
  · rw [if_neg h]
    rw [Finset.not_nonempty_iff_eq_empty, Finset.sdiff_eq_empty_iff_subset] at h
    exact (Finset.union_eq_left.mpr h).symm

theorem addToPending_requested (running : Bool) (s : SubState α)
    (symbols : Finset α) :
    (addToPendingResubscriptions running s symbols).requested = s.requested := by
  unfold addToPendingResubscriptions
  split
  · split <;> rfl
  · rfl

theorem addToPending_confirmed (running : Bool) (s : SubState α)
    (symbols : Finset α) :
    (addToPendingResubscriptions running s symbols).confirmed = s.confirmed := by
  unfold addToPendingResubscriptions
  split
  · split <;> rfl
  · rfl

theorem enqueueMissing_requested (running : Bool) (s : SubState α)
    (ack : Finset α) :
    (enqueueMissing running s ack).requested = s.requested := by
  unfold enqueueMissing
  split
  · rw [addToPending_requested]
  · rfl

theorem enqueueMissing_confirmed (running : Bool) (s : SubState α)
    (ack : Finset α) :
    (enqueueMissing running s ack).confirmed = s.confirmed := by
  unfold enqueueMissing
  split
  · rw [addToPending_confirmed]
  · rfl

theorem enqueueMissing_pending (s : SubState α) (ack : Finset α) :
    (enqueueMissing true s ack).pending =
      if (s.requested \ ack).Nonempty then s.pending ∪ (s.requested \ ack)
      else s.pending := by
  unfold enqueueMissing
  split
  · rw [addToPending_pending]
  · rfl

theorem processSubscribeAck_requested (s : SubState α) (ack : Finset α) :
    (processSubscribeAck true s ack).requested = s.requested := by
  unfold processSubscribeAck
  rw [enqueueMissing_requested, removeFromPending_requested]

theorem processSubscribeAck_confirmed (s : SubState α) (ack : Finset α) :
    (processSubscribeAck true s ack).confirmed = s.confirmed ∪ ack := by
  unfold processSubscribeAck
  rw [enqueueMissing_confirmed, removeFromPending_confirmed]

theorem processSubscribeAck_pending (s : SubState α) (ack : Finset α) :
    (processSubscribeAck true s ack).pending =
      if (s.requested \ ack).Nonempty then
        (s.pending \ ack) ∪ (s.requested \ ack)
      else s.pending \ ack := by
  unfold processSubscribeAck
  rw [enqueueMissing_pending, removeFromPending_pending,
    removeFromPending_requested]

end SubscriptionState

/-- C1: the claim asserts that the constraint
`pendingResubscription ∩ confirmed = ∅` is preserved by every subscribe-ack.
It is not: from the reachable state `requested = {0,1,2}`,
`confirmed = ∅`, `pending = ∅` (which satisfies both constraints), the ack
for `{0}` keeps both constraints, but the subsequent ack for `{1}` computes
`missing = requested - {1} = {0,2}` and re-enqueues the already-confirmed
symbol `0`, so afterwards `pending ∩ confirmed = {0} ≠ ∅`. -/
theorem subscribeAck_disjointness_counterexample :
    (let s0 : SubState ℕ := ⟨{0, 1, 2}, ∅, ∅⟩
     let s1 := processSubscribeAck true s0 {0}
     let s2 := processSubscribeAck true s1 {1}
     (s0.confirmed ⊆ s0.requested ∧ s0.pending ∩ s0.confirmed = ∅) ∧
     (s1.confirmed ⊆ s1.requested ∧ s1.pending ∩ s1.confirmed = ∅) ∧
     (s2.confirmed ⊆ s2.requested ∧ ¬ s2.pending ∩ s2.confirmed = ∅)) := by
  decide

/-- C1 (amended): processing a subscribe-ack whose symbols are among the
requested ones leaves the requested set unchanged, preserves
`confirmed ⊆ requested`, and leaves the pending set disjoint from the
symbols of that ack; the pending set is however not kept disjoint from the
whole accumulated confirmed set. -/
theorem processSubscribeAck_preserves_subset
    (s : SubState ℕ) (ack : Finset ℕ)
    (hconf : s.confirmed ⊆ s.requested) (hack : ack ⊆ s.requested) :
    (processSubscribeAck true s ack).requested = s.requested ∧
    (processSubscribeAck true s ack).confirmed ⊆
      (processSubscribeAck true s ack).requested ∧
    (processSubscribeAck true s ack).pending ∩ ack = ∅ := by
  refine ⟨processSubscribeAck_requested s ack, ?_, ?_⟩
  · rw [processSubscribeAck_requested, processSubscribeAck_confirmed]
    exact Finset.union_subset hconf hack
  · rw [processSubscribeAck_pending]
    split
    · ext a
      simp only [Finset.mem_inter, Finset.mem_union, Finset.mem_sdiff,
        Finset.not_mem_empty, iff_false]
      tauto
    · ext a
      simp only [Finset.mem_inter, Finset.mem_sdiff, Finset.not_mem_empty,
        iff_false]
      tauto

/-- Witness for the amended C1 theorem at a concrete state and ack. -/
theorem processSubscribeAck_preserves_subset_witness :
    (processSubscribeAck true (⟨{0, 1, 2}, {0}, {1, 2}⟩ : SubState ℕ)
        {1}).requested = ({0, 1, 2} : Finset ℕ) ∧
    (processSubscribeAck true (⟨{0, 1, 2}, {0}, {1, 2}⟩ : SubState ℕ)
        {1}).confirmed ⊆
      (processSubscribeAck true (⟨{0, 1, 2}, {0}, {1, 2}⟩ : SubState ℕ)
        {1}).requested ∧
    (processSubscribeAck true (⟨{0, 1, 2}, {0}, {1, 2}⟩ : SubState ℕ)
        {1}).pending ∩ {1} = ∅ :=
  processSubscribeAck_preserves_subset ⟨{0, 1, 2}, {0}, {1, 2}⟩ {1}
    (by decide) (by decide)

section ReconnectPaths

variable {α : Type} [DecidableEq α]

theorem handleBrokerConnectionError_requested (s : SubState α) :
    (handleBrokerConnectionError true s).requested = ∅ := by
  unfold handleBrokerConnectionError
  split
  · rw [addToPending_requested]
  · rfl

theorem handleBrokerConnectionError_confirmed (s : SubState α) :
    (handleBrokerConnectionError true s).confirmed = ∅ := by
  unfold handleBrokerConnectionError
  split
  · rw [addToPending_confirmed]
  · rfl

theorem handleBrokerConnectionError_pending (s : SubState α) :
    (handleBrokerConnectionError true s).pending = s.pending ∪ s.requested := by
  unfold handleBrokerConnectionError
  split
  · rw [addToPending_pending]
  · rename_i h
    rw [Finset.not_nonempty_iff_eq_empty] at h
    rw [h]
    exact (Finset.union_empty _).symm

end ReconnectPaths

/-- C2: the claim asserts that on every reconnect path the previously
confirmed symbols are moved into the pending-resubscription set, with
`pending = {A,B,C,D}` for `confirmed = {0,1,2}` and `requested = {0,1,2,3}`.
On the circuit-breaker HALF_OPEN recovery path the daemon merely clears
`requested` and `confirmed` (lines 435-444 of broker_daemon.py) and leaves
the pending set as it was, so starting with an empty pending set nothing at
all is enqueued: the confirmed symbols are simply dropped from the
bookkeeping (the shard is instead re-subscribed from scratch). -/
theorem reconnectPaths_counterexample :
    (let s : SubState ℕ := ⟨{0, 1, 2, 3}, {0, 1, 2}, ∅⟩
     (resetStateAfterReconnect s).requested = ∅ ∧
     (resetStateAfterReconnect s).confirmed = ∅ ∧
     (resetStateAfterReconnect s).pending = ∅ ∧
     ¬ (resetStateAfterReconnect s).pending = {0, 1, 2, 3}) := by
  decide

/-- C2 (amended): only the direct `BrokerConnectionError` reconnect path
moves symbols into the pending-resubscription set, and it moves the whole
requested set (a superset of the confirmed set whenever
`confirmed ⊆ requested`), so in the scenario the pending set becomes
`{A,B,C,D}` there; both paths clear `requested` and `confirmed`, but the
circuit-breaker HALF_OPEN recovery path leaves the pending set unchanged
and enqueues nothing. -/
theorem reconnectPaths_pending (s : SubState ℕ)
    (hconf : s.confirmed ⊆ s.requested) :
    ((handleBrokerConnectionError true s).requested = ∅ ∧
     (handleBrokerConnectionError true s).confirmed = ∅ ∧
     (handleBrokerConnectionError true s).pending = s.pending ∪ s.requested ∧
     s.confirmed ⊆ (handleBrokerConnectionError true s).pending) ∧
    ((resetStateAfterReconnect s).requested = ∅ ∧
     (resetStateAfterReconnect s).confirmed = ∅ ∧
     (resetStateAfterReconnect s).pending = s.pending) := by
  refine ⟨⟨handleBrokerConnectionError_requested s,
    handleBrokerConnectionError_confirmed s,
    handleBrokerConnectionError_pending s, ?_⟩, rfl, rfl, rfl⟩
  rw [handleBrokerConnectionError_pending]
  exact hconf.trans (Finset.subset_union_right)

/-- Witness for the amended C2 theorem: the scenario state with
`confirmed = {0,1,2}`, `requested = {0,1,2,3}` and an empty pending set. -/
theorem reconnectPaths_pending_witness :
    ((handleBrokerConnectionError true
        (⟨{0, 1, 2, 3}, {0, 1, 2}, ∅⟩ : SubState ℕ)).requested = ∅ ∧
     (handleBrokerConnectionError true
        (⟨{0, 1, 2, 3}, {0, 1, 2}, ∅⟩ : SubState ℕ)).confirmed = ∅ ∧
     (handleBrokerConnectionError true
        (⟨{0, 1, 2, 3}, {0, 1, 2}, ∅⟩ : SubState ℕ)).pending =
       (∅ : Finset ℕ) ∪ {0, 1, 2, 3} ∧
     ({0, 1, 2} : Finset ℕ) ⊆
       (handleBrokerConnectionError true
        (⟨{0, 1, 2, 3}, {0, 1, 2}, ∅⟩ : SubState ℕ)).pending) ∧
    ((resetStateAfterReconnect
        (⟨{0, 1, 2, 3}, {0, 1, 2}, ∅⟩ : SubState ℕ)).requested = ∅ ∧
     (resetStateAfterReconnect
        (⟨{0, 1, 2, 3}, {0, 1, 2}, ∅⟩ : SubState ℕ)).confirmed = ∅ ∧
     (resetStateAfterReconnect
        (⟨{0, 1, 2, 3}, {0, 1, 2}, ∅⟩ : SubState ℕ)).pending = ∅) :=
  reconnectPaths_pending ⟨{0, 1, 2, 3}, {0, 1, 2}, ∅⟩ (by decide)

/-- States of the per-link circuit breaker dictionary entry
(`circuit_breakers[link]['state']` in broker_daemon.py). -/
inductive BreakerState
  | CLOSED
  | OPEN
  | HALF_OPEN
  | DISABLED
  deriving DecidableEq

/-- The circuit-breaker bookkeeping the daemon keeps per link: the state
and the consecutive failure count (times are not modelled). -/
structure Breaker where
  state : BreakerState
  failureCount : ℕ
  deriving DecidableEq

/-- Embedding of the `CircuitBreakerError` handler of
`BrokerDaemon._run_broker_loop`: `failure_count` is incremented, and the
breaker is opened once `failure_count >= failure_threshold`. -/
def handleCircuitBreakerError (threshold : ℕ) (b : Breaker) : Breaker :=
  if threshold ≤ b.failureCount + 1 then
    { state := .OPEN, failureCount := b.failureCount + 1 }
  else { b with failureCount := b.failureCount + 1 }

/-- Environment of one iteration of `BrokerDaemon._run_broker_loop`: whether
`broker.connect()` raises `BrokerConnectionError`, whether the subsequent
`_send_ping` succeeds, and whether the `receive_data` pump terminates by
raising (every receive failure is rethrown as `CircuitBreakerError`). -/
structure IterEnv where
  connectRaises : Bool
  pingOk : Bool
  pumpRaises : Bool
  deriving DecidableEq

/-- Effect of one iteration of `BrokerDaemon._run_broker_loop` on the
circuit breaker. In the OPEN branch the loop sleeps `recovery_timeout`
seconds and then flips to HALF_OPEN; in the HALF_OPEN branch it reconnects
and pings, closing the breaker with `failure_count = 0` on success and
reopening it on ping failure, then (when closed) falls through to the
subscribe-and-pump phase; in the CLOSED branch a ping failure after a fresh
connect, or an error from the pump, raises `CircuitBreakerError`, which the
handler turns into a failure count increment; a `BrokerConnectionError`
from `connect()` is handled without touching the breaker. -/
def runBrokerIteration (threshold : ℕ) (b : Breaker) (env : IterEnv) :
    Breaker :=
  match b.state with
  | .DISABLED => b
  | .OPEN => { b with state := .HALF_OPEN }
  | .HALF_OPEN =>
      if env.connectRaises then b
      else if env.pingOk then
        if env.pumpRaises then
          handleCircuitBreakerError threshold ⟨.CLOSED, 0⟩
        else ⟨.CLOSED, 0⟩
      else { b with state := .OPEN }
  | .CLOSED =>
      if env.connectRaises then b
      else if env.pingOk then
        if env.pumpRaises then handleCircuitBreakerError threshold b else b
      else handleCircuitBreakerError threshold b

/-- Fold of `runBrokerIteration` over a sequence of iteration environments. -/
def runBrokerIterations (threshold : ℕ) (b : Breaker)
    (envs : List IterEnv) : Breaker :=
  envs.foldl (runBrokerIteration threshold) b

theorem runBrokerIteration_of_open (threshold : ℕ) (b : Breaker)
    (env : IterEnv) (h : b.state = .OPEN) :
    runBrokerIteration threshold b env = { b with state := .HALF_OPEN } := by
  unfold runBrokerIteration
  rw [h]

/-- C3: the circuit breaker never goes from OPEN straight to CLOSED: a
single loop iteration can only end in the CLOSED state if it started in
HALF_OPEN or CLOSED, and any trace that starts at OPEN and ends CLOSED
passes through HALF_OPEN right after its first iteration; moreover with
`failure_threshold = 1` the scenario holds: the first `ConnectionError`
surfacing from the pump takes `(CLOSED, 0)` to `(OPEN, 1)` immediately,
the next iteration (after the `recovery_timeout` sleep) yields HALF_OPEN,
and a successful reconnect-plus-ping yields `(CLOSED, 0)`. -/
theorem circuitBreaker_never_skips_half_open :
    (∀ (threshold : ℕ) (b : Breaker) (env : IterEnv),
      (runBrokerIteration threshold b env).state = .CLOSED →
      b.state = .HALF_OPEN ∨ b.state = .CLOSED) ∧
    (∀ (threshold : ℕ) (b : Breaker) (envs : List IterEnv),
      b.state = .OPEN →
      (runBrokerIterations threshold b envs).state = .CLOSED →
      ∃ e rest, envs = e :: rest ∧
        (runBrokerIteration threshold b e).state = .HALF_OPEN) ∧
    runBrokerIteration 1 ⟨.CLOSED, 0⟩ ⟨false, true, true⟩ = ⟨.OPEN, 1⟩ ∧
    (∀ env : IterEnv,
      runBrokerIteration 1 ⟨.OPEN, 1⟩ env = ⟨.HALF_OPEN, 1⟩) ∧
    runBrokerIteration 1 ⟨.HALF_OPEN, 1⟩ ⟨false, true, false⟩ = ⟨.CLOSED, 0⟩ := by
  refine ⟨?_, ?_, by decide, ?_, by decide⟩
  · intro threshold b env h
    cases hb : b.state
    case CLOSED => exact Or.inr rfl
    case HALF_OPEN => exact Or.inl rfl
    case OPEN =>
      rw [runBrokerIteration_of_open threshold b env hb] at h
      simp at h
    case DISABLED =>
      unfold runBrokerIteration at h
      rw [hb] at h
      simp only [] at h
      rw [h] at hb
      exact absurd hb (by decide)
  · intro threshold b envs hb hc
    cases envs with
    | nil =>
        unfold runBrokerIterations at hc
        simp only [List.foldl_nil] at hc
        rw [hb] at hc
        cases hc
    | cons e rest =>
        refine ⟨e, rest, rfl, ?_⟩
        rw [runBrokerIteration_of_open threshold b e hb]
  · intro env
    cases env with
    | mk c p r => cases c <;> cases p <;> cases r <;> decide

/-- Embedding of `BrokerDaemon._calculate_required_sessions`:
`min(ceil(len(total_symbols) / batch_size), max_sessions)`, and 0 for an
empty watch-list; the ceiling is computed as `(len + batch - 1) / batch`
in natural-number division, which agrees with `math.ceil` for a positive
batch size. -/
def calculateRequiredSessions {α : Type} (batchSize maxSessions : ℕ)
    (totalSymbols : List α) : ℕ :=
  if totalSymbols.isEmpty then 0
  else min ((totalSymbols.length + batchSize - 1) / batchSize) maxSessions

/-- Embedding of `BrokerDaemon._get_symbols_for_session`: the python slice
`total_symbols[session_id * batch : min(session_id * batch + batch, len)]`. -/
def getSymbolsForSession {α : Type} (batchSize sessionId : ℕ)
    (totalSymbols : List α) : List α :=
  (totalSymbols.drop (sessionId * batchSize)).take batchSize

/-- All the shards the daemon creates for one broker: one per session id
below `calculateRequiredSessions`. -/
def allSessionShards {α : Type} (batchSize maxSessions : ℕ)
    (totalSymbols : List α) : List (List α) :=
  (List.range (calculateRequiredSessions batchSize maxSessions totalSymbols)).map
    (fun i => getSymbolsForSession batchSize i totalSymbols)

theorem shardsJoin {α : Type} (b : ℕ) (l : List α) (n : ℕ) :
    ((List.range n).map (fun i => getSymbolsForSession b i l)).flatten =
      l.take (n * b) := by
  induction n with
  | zero => simp
  | succ n ih =>
      rw [List.range_succ, List.map_append, List.flatten_append]
      simp only [List.map_cons, List.map_nil, List.flatten_cons,
        List.flatten_nil, List.append_nil]
      rw [ih, Nat.succ_mul, List.take_add]
      rfl

theorem length_le_ceil_mul (n b : ℕ) (hb : 0 < b) :
    n ≤ (n + b - 1) / b * b := by
  have h := Nat.lt_div_mul_add (a := n + b - 1) hb
  generalize (n + b - 1) / b * b = X at h ⊢
  omega

theorem shards_disjoint_of_lt {α : Type} (b i j : ℕ) (l : List α)
    (hij : i < j) (hnd : l.Nodup) :
    List.Disjoint (getSymbolsForSession b i l) (getSymbolsForSession b j l) := by
  intro x hxA hxB
  have hnd2 : (l.drop (i * b)).Nodup := (List.drop_sublist (i * b) l).nodup hnd
  have hnd3 : ((l.drop (i * b)).take b ++ l.drop (i * b + b)).Nodup := by
    rw [List.drop_take_append_drop]
    exact hnd2
  rw [List.nodup_append] at hnd3
  have hBsub : getSymbolsForSession b j l ⊆ l.drop (i * b + b) := by
    intro y hy
    have hy2 : y ∈ l.drop (j * b) :=
      (List.take_sublist b (l.drop (j * b))).subset hy
    have hmul : i * b + b ≤ j * b := by
      have h2 : (i + 1) * b ≤ j * b := Nat.mul_le_mul_right b hij
      calc i * b + b = (i + 1) * b := by ring
        _ ≤ j * b := h2
    have harith : (i * b + b) + (j * b - (i * b + b)) = j * b := by omega
    rw [← harith, ← List.drop_drop] at hy2
    exact (List.drop_sublist _ _).subset hy2
  exact hnd3.2.2 hxA (hBsub hxB)

theorem shards_disjoint {α : Type} (b i j : ℕ) (l : List α)
    (hij : i ≠ j) (hnd : l.Nodup) :
    List.Disjoint (getSymbolsForSession b i l) (getSymbolsForSession b j l) := by
  rcases Nat.lt_or_ge i j with h | h
  · exact shards_disjoint_of_lt b i j l h hnd
  · have h2 : j < i := lt_of_le_of_ne h (Ne.symm hij)
    exact (shards_disjoint_of_lt b j i l h2 hnd).symm

/-- C4: the claim asserts that the union of the shards equals the full
watch-list for every `batchSize`, `maxSessions` and watch-list; it does
not: with 45 symbols, `batchSize = 20` and `maxSessions = 2`, only 2
sessions are created, the shards jointly contain the first 40 symbols, and
symbol 44 is assigned to no shard (it is simply unserved). -/
theorem sharding_union_counterexample :
    calculateRequiredSessions 20 2 (List.range 45) = 2 ∧
    (allSessionShards 20 2 (List.range 45)).flatten.length = 40 ∧
    ¬ 44 ∈ (allSessionShards 20 2 (List.range 45)).flatten := by
  decide

/-- C4 (amended): the shard assignment is a deterministic pure function of
the watch-list, the batch size and the shard index; for a positive batch
size and a duplicate-free watch-list the shards are pairwise disjoint, and
the concatenation of the shards of the created sessions equals the first
`sessions * batchSize` symbols of the watch-list; that concatenation is
the full watch-list exactly when `ceil(len/batchSize) ≤ maxSessions`, and
otherwise the clipped maxSessions leaves a tail of the watch-list
unserved. -/
theorem sharding_amended (batchSize maxSessions : ℕ) (l : List ℕ)
    (hb : 0 < batchSize) (hnd : l.Nodup) :
    (∀ i j, i ≠ j →
      List.Disjoint (getSymbolsForSession batchSize i l)
        (getSymbolsForSession batchSize j l)) ∧
    (allSessionShards batchSize maxSessions l).flatten =
      l.take (calculateRequiredSessions batchSize maxSessions l * batchSize) ∧
    ((l.length + batchSize - 1) / batchSize ≤ maxSessions →
      (allSessionShards batchSize maxSessions l).flatten = l) := by
  refine ⟨fun i j hij => shards_disjoint batchSize i j l hij hnd, ?_,
    fun hle => ?_⟩
  · unfold allSessionShards
    exact shardsJoin batchSize l _
  · unfold allSessionShards
    rw [shardsJoin batchSize l _]
    unfold calculateRequiredSessions
    by_cases hl : l.isEmpty
    · rw [if_pos hl]
      rw [List.isEmpty_iff] at hl
      simp [hl]
    · rw [if_neg hl]
      rw [min_eq_left hle]
      apply List.take_of_length_le
      exact length_le_ceil_mul l.length batchSize hb

/-- Witness for the amended C4 theorem: the 45-symbol watch-list with
`batchSize = 20` and `maxSessions = 2`. -/
theorem sharding_amended_witness :
    (allSessionShards 20 2 (List.range 45)).flatten =
      (List.range 45).take (calculateRequiredSessions 20 2 (List.range 45) * 20) :=
  (sharding_amended 20 2 (List.range 45) (by decide)
    (by decide)).2.1

/-- Witness for the C3 theorem: a HALF_OPEN breaker that closes in one
iteration, and an OPEN breaker that reaches CLOSED over a two-iteration
trace, passing through HALF_OPEN after the first iteration. -/
theorem circuitBreaker_never_skips_half_open_witness :
    ((⟨.HALF_OPEN, 1⟩ : Breaker).state = .HALF_OPEN ∨
     (⟨.HALF_OPEN, 1⟩ : Breaker).state = .CLOSED) ∧
    (∃ e rest,
      ([⟨false, true, false⟩, ⟨false, true, false⟩] : List IterEnv) =
        e :: rest ∧
      (runBrokerIteration 1 ⟨.OPEN, 1⟩ e).state = .HALF_OPEN) :=
  ⟨circuitBreaker_never_skips_half_open.1 1 ⟨.HALF_OPEN, 1⟩
      ⟨false, true, false⟩ (by decide),
   circuitBreaker_never_skips_half_open.2.1 1 ⟨.OPEN, 1⟩
      [⟨false, true, false⟩, ⟨false, true, false⟩] rfl (by decide)⟩

/-- Environment of one attempt of the resubscription retry loop in
`BrokerDaemon._resubscribe_missing_symbols`: whether the broker is still
connected when the attempt starts, and which symbols
`broker.subscribe_symbol` succeeds for during the attempt. -/
structure AttemptEnv (α : Type) where
  connected : Bool
  succ : Finset α
  deriving DecidableEq

/-- Result of one invocation of `_resubscribe_missing_symbols`: the final
`retry_count`, the remaining pending set, the number of
`ResubscriptionFailedError` values raised (each is caught and logged inside
the task, so the invocation always returns), and the symbols carried by the
raised error. -/
structure ResubOutcome (α : Type) where
  retryCount : ℕ
  remaining : Finset α
  errorsRaised : ℕ
  errorSymbols : Finset α
  deriving DecidableEq

/-- Embedding of the wait-time computation of
`BrokerDaemon._resubscribe_missing_symbols` for attempt number
`retryCount`: 3 seconds for the first attempt, and
`min(base_interval * 2 ^ (retryCount - 2), max_interval)` afterwards when
exponential backoff is enabled (plain `base_interval` otherwise). -/
def resubWaitTime (baseInterval maxInterval : ℕ) (expBackoff : Bool)
    (retryCount : ℕ) : ℕ :=
  if retryCount = 1 then 3
  else if expBackoff then
    min (baseInterval * 2 ^ (retryCount - 2)) maxInterval
  else baseInterval

/-- Embedding of the while-loop of
`BrokerDaemon._resubscribe_missing_symbols`. One list element of `envs` is
consumed per iteration; an exhausted list models the daemon's running flag
going false (or task cancellation). Each iteration re-checks
`retry_count < max_retries` and that the pending set is nonempty,
increments `retry_count`, stops if the broker is no longer connected,
removes the successfully re-subscribed symbols from the pending set, and on
partial success decrements the retry counter by two (floored at zero, as in
`max(0, retry_count - 2)`). -/
def resubLoop {α : Type} [DecidableEq α] (maxRetries : ℕ) :
    ℕ → Finset α → List (AttemptEnv α) → ℕ × Finset α
  | rc, pending, [] => (rc, pending)
  | rc, pending, e :: rest =>
      if rc < maxRetries ∧ pending.Nonempty then
        if e.connected then
          resubLoop maxRetries
            (if (e.succ ∩ pending).Nonempty then max 0 (rc + 1 - 2)
             else rc + 1)
            (pending \ (e.succ ∩ pending)) rest
        else (rc + 1, pending)
      else (rc, pending)

/-- Embedding of one invocation of
`BrokerDaemon._resubscribe_missing_symbols`: the loop starts with
`retry_count = 0`, and the `finally` block raises (and immediately catches)
exactly one `ResubscriptionFailedError` carrying all the remaining symbols
when the pending set is still nonempty and the retry budget was
exhausted. -/
def resubscribeMissingSymbols {α : Type} [DecidableEq α] (maxRetries : ℕ)
    (pending0 : Finset α) (envs : List (AttemptEnv α)) : ResubOutcome α :=
  { retryCount := (resubLoop maxRetries 0 pending0 envs).1,
    remaining := (resubLoop maxRetries 0 pending0 envs).2,
    errorsRaised :=
      if (resubLoop maxRetries 0 pending0 envs).2.Nonempty ∧
          maxRetries ≤ (resubLoop maxRetries 0 pending0 envs).1 then 1
      else 0,
    errorSymbols :=
      if (resubLoop maxRetries 0 pending0 envs).2.Nonempty ∧
          maxRetries ≤ (resubLoop maxRetries 0 pending0 envs).1 then
        (resubLoop maxRetries 0 pending0 envs).2
      else ∅ }

theorem resubLoop_rc_le {α : Type} [DecidableEq α] (maxRetries : ℕ) :
    ∀ (envs : List (AttemptEnv α)) (rc : ℕ) (pending : Finset α),
      rc ≤ maxRetries → (resubLoop maxRetries rc pending envs).1 ≤ maxRetries
  | [], rc, pending, h => h
  | e :: rest, rc, pending, h => by
      unfold resubLoop
      split
      · rename_i hcond
        split
        · apply resubLoop_rc_le maxRetries rest
          split <;> omega
        · omega
      · exact h

/-- C5: in one invocation of the resubscription retry task the retry count
never exceeds `maxRetries`; when the budget is exhausted with symbols still
pending, exactly one `ResubscriptionFailedError` is raised for the whole
invocation, carrying all remaining symbols (never one error per symbol),
and the error is caught inside the task itself, so the invocation returns
normally and the link is not terminated. -/
theorem resubscription_budget_single_error (maxRetries : ℕ)
    (pending0 : Finset ℕ) (envs : List (AttemptEnv ℕ)) :
    (resubscribeMissingSymbols maxRetries pending0 envs).retryCount ≤
      maxRetries ∧
    (resubscribeMissingSymbols maxRetries pending0 envs).errorsRaised ≤ 1 ∧
    ((resubscribeMissingSymbols maxRetries pending0 envs).errorsRaised = 1 →
      (resubscribeMissingSymbols maxRetries pending0 envs).errorSymbols =
        (resubscribeMissingSymbols maxRetries pending0 envs).remaining ∧
      (resubscribeMissingSymbols maxRetries pending0 envs).remaining.Nonempty) := by
  unfold resubscribeMissingSymbols
  dsimp only
  refine ⟨resubLoop_rc_le maxRetries envs 0 pending0 (Nat.zero_le _), ?_, ?_⟩
  · split <;> omega
  · by_cases hC : (resubLoop maxRetries 0 pending0 envs).2.Nonempty ∧
        maxRetries ≤ (resubLoop maxRetries 0 pending0 envs).1
    · intro _
      rw [if_pos hC]
      exact ⟨rfl, hC.1⟩
    · rw [if_neg hC]
      intro h
      exact absurd h (by decide)

/-- Witness for the C5 theorem: a budget of one retry, one pending symbol,
and one connected attempt that fails to re-subscribe it, exhausting the
budget and raising the single error. -/
theorem resubscription_budget_single_error_witness :
    (resubscribeMissingSymbols 1 ({0} : Finset ℕ) [⟨true, ∅⟩]).retryCount ≤
      1 ∧
    (resubscribeMissingSymbols 1 ({0} : Finset ℕ) [⟨true, ∅⟩]).errorSymbols =
      (resubscribeMissingSymbols 1 ({0} : Finset ℕ) [⟨true, ∅⟩]).remaining :=
  ⟨(resubscription_budget_single_error 1 {0} [⟨true, ∅⟩]).1,
   ((resubscription_budget_single_error 1 {0} [⟨true, ∅⟩]).2.2 (by decide)).1⟩

/-- C6: with the default resubscription configuration
(`base_interval = 10`, `max_interval = 300`, exponential backoff on,
`max_retries = 10`) the wait before attempt 1 is 3 seconds; for every
attempt number n ≥ 2 the wait is `min(10 * 2^(n-2), 300)` seconds, giving
10, 20, 40, 80, 160 and then 300 capped; every wait is at most 300
seconds, and the final retry count of an invocation never exceeds the
10-attempt budget. -/
theorem resubscription_backoff_schedule :
    resubWaitTime 10 300 true 1 = 3 ∧
    (∀ n, 2 ≤ n →
      resubWaitTime 10 300 true n = min (10 * 2 ^ (n - 2)) 300) ∧
    (resubWaitTime 10 300 true 2 = 10 ∧ resubWaitTime 10 300 true 3 = 20 ∧
     resubWaitTime 10 300 true 4 = 40 ∧ resubWaitTime 10 300 true 5 = 80 ∧
     resubWaitTime 10 300 true 6 = 160 ∧ resubWaitTime 10 300 true 7 = 300 ∧
     resubWaitTime 10 300 true 8 = 300 ∧ resubWaitTime 10 300 true 9 = 300 ∧
     resubWaitTime 10 300 true 10 = 300) ∧
    (∀ n, 1 ≤ n → resubWaitTime 10 300 true n ≤ 300) ∧
    (∀ (pending0 : Finset ℕ) (envs : List (AttemptEnv ℕ)),
      (resubscribeMissingSymbols 10 pending0 envs).retryCount ≤ 10) := by
  refine ⟨rfl, ?_, by decide, ?_, ?_⟩
  · intro n hn
    unfold resubWaitTime
    rw [if_neg (by omega : ¬ n = 1), if_pos rfl]
  · intro n hn
    unfold resubWaitTime
    by_cases h1 : n = 1
    · rw [if_pos h1]
      omega
    · rw [if_neg h1]
      exact min_le_right _ _
  · intro pending0 envs
    exact resubLoop_rc_le 10 envs 0 pending0 (Nat.zero_le _)

/-- Witness for the C6 theorem at attempt number 8. -/
theorem resubscription_backoff_schedule_witness :
    resubWaitTime 10 300 true 8 = min (10 * 2 ^ (8 - 2)) 300 :=
  resubscription_backoff_schedule.2.1 8 (by decide)

/-- Country codes handled by `is_market_open` in
`app/schedule/date_utils.py`: the `country` literal is KR or US, with a
fallback branch for anything else. -/
inductive Country
  | KR
  | US
  | OTHER
  deriving DecidableEq

/-- Per-market window configuration: the four clock boundaries read from
the environment (pre-open, open, close, after-close), as hour/minute
pairs. -/
structure MarketHoursConfig where
  preHour : ℕ
  preMinute : ℕ
  openHour : ℕ
  openMinute : ℕ
  closeHour : ℕ
  closeMinute : ℕ
  afterHour : ℕ
  afterMinute : ℕ
  deriving DecidableEq

/-- A wall-clock reading (the `now.hour` / `now.minute` values used by
`is_market_open`). -/
structure MarketClock where
  hour : ℕ
  minute : ℕ
  deriving DecidableEq

/-- The dictionary returned by `is_market_open` (the `country` and
`current_time` entries are carried by the call itself). -/
structure MarketOpenInfo where
  is_business_day : Bool
  is_trading_hours : Bool
  is_pre_market : Bool
  is_after_market : Bool
  is_closed : Bool
  deriving DecidableEq

/-- The raw window flags computed by `is_market_open` before they are
conjoined with the business-day bit: current minute-of-day compared
against the four configured boundaries. -/
def marketFlags (cfg : MarketHoursConfig) (now : MarketClock) :
    Bool × Bool × Bool :=
  (decide (cfg.openHour * 60 + cfg.openMinute ≤ now.hour * 60 + now.minute ∧
     now.hour * 60 + now.minute < cfg.closeHour * 60 + cfg.closeMinute),
   decide (cfg.preHour * 60 + cfg.preMinute ≤ now.hour * 60 + now.minute ∧
     now.hour * 60 + now.minute < cfg.openHour * 60 + cfg.openMinute),
   decide (cfg.closeHour * 60 + cfg.closeMinute ≤ now.hour * 60 + now.minute ∧
     now.hour * 60 + now.minute < cfg.afterHour * 60 + cfg.afterMinute))

/-- Embedding of `is_market_open` from `app/schedule/date_utils.py`:
`checkSession` is the trading-calendar business-day predicate
(`check_session(dt=now, country=country)`), `clock` gives the per-country
local time, and the KR and US branches each compare minute-of-day against
their own configured boundaries (any other country gets all-false flags).
Every window flag in the returned record is conjoined with the
business-day bit, and `is_closed` is the negation of business-day or of
all three window flags. -/
def is_market_open (krCfg usCfg : MarketHoursConfig)
    (checkSession : Country → Bool) (clock : Country → MarketClock)
    (country : Country) : MarketOpenInfo :=
  { is_business_day := checkSession country,
    is_trading_hours :=
      (match country with
       | .KR => (marketFlags krCfg (clock .KR)).1
       | .US => (marketFlags usCfg (clock .US)).1
       | .OTHER => false) && checkSession country,
    is_pre_market :=
      (match country with
       | .KR => (marketFlags krCfg (clock .KR)).2.1
       | .US => (marketFlags usCfg (clock .US)).2.1
       | .OTHER => false) && checkSession country,
    is_after_market :=
      (match country with
       | .KR => (marketFlags krCfg (clock .KR)).2.2
       | .US => (marketFlags usCfg (clock .US)).2.2
       | .OTHER => false) && checkSession country,
    is_closed :=
      !checkSession country ||
      !((match country with
         | .KR => (marketFlags krCfg (clock .KR)).1
         | .US => (marketFlags usCfg (clock .US)).1
         | .OTHER => false) ||
        (match country with
         | .KR => (marketFlags krCfg (clock .KR)).2.1
         | .US => (marketFlags usCfg (clock .US)).2.1
         | .OTHER => false) ||
        (match country with
         | .KR => (marketFlags krCfg (clock .KR)).2.2
         | .US => (marketFlags usCfg (clock .US)).2.2
         | .OTHER => false)) }

/-- The market states of `app/schedule/enums.py` used by
`MarketScheduler`. -/
inductive MarketState
  | PRE_MARKET
  | REGULAR_HOURS
  | AFTER_HOURS
  | CLOSED
  deriving DecidableEq

/-- Embedding of `MarketScheduler.get_current_market_state` in TIME_BASED
mode: `is_market_open` is evaluated for every configured market, and the
combined state is REGULAR_HOURS if any market is in trading hours, else
PRE_MARKET if any is pre-market, else AFTER_HOURS if any is after-market,
else CLOSED. -/
def getCurrentMarketStateTimeBased (krCfg usCfg : MarketHoursConfig)
    (checkSession : Country → Bool) (clock : Country → MarketClock)
    (markets : List Country) : MarketState :=
  if (markets.map (is_market_open krCfg usCfg checkSession clock)).any
      (fun info => info.is_trading_hours) then .REGULAR_HOURS
  else if (markets.map (is_market_open krCfg usCfg checkSession clock)).any
      (fun info => info.is_pre_market) then .PRE_MARKET
  else if (markets.map (is_market_open krCfg usCfg checkSession clock)).any
      (fun info => info.is_after_market) then .AFTER_HOURS
  else .CLOSED

theorem is_market_open_flags_false (krCfg usCfg : MarketHoursConfig)
    (checkSession : Country → Bool) (clock : Country → MarketClock)
    (m : Country) (h : checkSession m = false) :
    (is_market_open krCfg usCfg checkSession clock m).is_trading_hours =
      false ∧
    (is_market_open krCfg usCfg checkSession clock m).is_pre_market = false ∧
    (is_market_open krCfg usCfg checkSession clock m).is_after_market =
      false := by
  unfold is_market_open
  dsimp only
  rw [h]
  simp only [Bool.and_false, and_self]

/-- C7: in time-based scheduling mode, whenever the trading calendar says
the current date is not a business day for every configured market, the
derived market state is CLOSED, and the `is_trading_hours`,
`is_pre_market` and `is_after_market` flags of every configured market are
false regardless of the clock time and the configured windows. -/
theorem nonBusinessDay_yields_closed (krCfg usCfg : MarketHoursConfig)
    (checkSession : Country → Bool) (clock : Country → MarketClock)
    (markets : List Country)
    (h : ∀ m ∈ markets, checkSession m = false) :
    getCurrentMarketStateTimeBased krCfg usCfg checkSession clock markets =
      .CLOSED ∧
    ∀ m ∈ markets,
      (is_market_open krCfg usCfg checkSession clock m).is_trading_hours =
        false ∧
      (is_market_open krCfg usCfg checkSession clock m).is_pre_market =
        false ∧
      (is_market_open krCfg usCfg checkSession clock m).is_after_market =
        false := by
  have hflags := fun m hm =>
    is_market_open_flags_false krCfg usCfg checkSession clock m (h m hm)
  refine ⟨?_, hflags⟩
  unfold getCurrentMarketStateTimeBased
  have hany : ∀ (f : MarketOpenInfo → Bool),
      (∀ m ∈ markets,
        f (is_market_open krCfg usCfg checkSession clock m) = false) →
      (markets.map (is_market_open krCfg usCfg checkSession clock)).any f =
        false := by
    intro f hf
    rw [List.any_eq_false]
    intro info hinfo
    rw [List.mem_map] at hinfo
    obtain ⟨m, hm, rfl⟩ := hinfo
    rw [hf m hm]
    exact Bool.false_ne_true
  rw [hany _ (fun m hm => (hflags m hm).1),
    hany _ (fun m hm => (hflags m hm).2.1),
    hany _ (fun m hm => (hflags m hm).2.2)]
  rfl

/-- Witness for the C7 theorem: both markets configured, a calendar that
reports no business day anywhere, and a mid-morning clock. -/
theorem nonBusinessDay_yields_closed_witness :
    getCurrentMarketStateTimeBased
        ⟨7, 30, 8, 0, 18, 0, 18, 30⟩ ⟨3, 30, 4, 0, 20, 0, 20, 30⟩
        (fun _ => false) (fun _ => ⟨10, 0⟩) [.KR, .US] = .CLOSED ∧
    ∀ m ∈ ([.KR, .US] : List Country),
      (is_market_open ⟨7, 30, 8, 0, 18, 0, 18, 30⟩
          ⟨3, 30, 4, 0, 20, 0, 20, 30⟩ (fun _ => false)
          (fun _ => ⟨10, 0⟩) m).is_trading_hours = false ∧
      (is_market_open ⟨7, 30, 8, 0, 18, 0, 18, 30⟩
          ⟨3, 30, 4, 0, 20, 0, 20, 30⟩ (fun _ => false)
          (fun _ => ⟨10, 0⟩) m).is_pre_market = false ∧
      (is_market_open ⟨7, 30, 8, 0, 18, 0, 18, 30⟩
          ⟨3, 30, 4, 0, 20, 0, 20, 30⟩ (fun _ => false)
          (fun _ => ⟨10, 0⟩) m).is_after_market = false :=
  nonBusinessDay_yields_closed ⟨7, 30, 8, 0, 18, 0, 18, 30⟩
    ⟨3, 30, 4, 0, 20, 0, 20, 30⟩ (fun _ => false) (fun _ => ⟨10, 0⟩)
    [.KR, .US] (fun _ _ => rfl)

/-- Default per-symbol throttle interval of `RedisService`
(`_throttle_interval = 0.5` seconds). -/
def defaultThrottleInterval : ℚ := 1 / 2

/-- Outcome of one `RedisService.publish_raw_data` call: the boolean the
call returns, whether the Redis publish was actually invoked, and the
updated `_last_publish_time` map (a missing dictionary key is read as 0,
as in `self._last_publish_time.get(symbol, 0)`). -/
structure PublishOutcome (α : Type) where
  returned : Bool
  published : Bool
  lastPublishTime : α → ℚ

/-- Embedding of `RedisService.publish_raw_data` for the symbol carried by
the message: with no client the call returns False; when the current time
is strictly less than `throttleInterval` after the symbol's recorded last
publish time the update is dropped (False is returned and nothing is
published or recorded); otherwise the message is published, the symbol's
last-publish time is set to the current time, and the call returns whether
the publish reached any receiver. -/
def publish_raw_data {α : Type} [DecidableEq α] (throttleInterval : ℚ)
    (clientAvailable : Bool) (lastPub : α → ℚ) (symbol : α)
    (currentTime : ℚ) (receiverCount : ℕ) : PublishOutcome α :=
  if clientAvailable then
    if currentTime - lastPub symbol < throttleInterval then
      ⟨false, false, lastPub⟩
    else
      ⟨decide (0 < receiverCount), true,
       Function.update lastPub symbol currentTime⟩
  else ⟨false, false, lastPub⟩

/-- C8: the publish sink throttles per symbol: a publish attempted strictly
less than 0.5 seconds after the symbol's recorded last publish returns
false and publishes nothing, leaving the recorded times untouched (the
update is dropped, not queued); a publish at or after the 0.5-second
interval goes through, records the current time for that symbol, and
leaves every other symbol's recorded time unchanged. -/
theorem publish_raw_data_throttle (lastPub : ℕ → ℚ) (symbol : ℕ) (now : ℚ)
    (receiverCount : ℕ) :
    (now - lastPub symbol < defaultThrottleInterval →
      (publish_raw_data defaultThrottleInterval true lastPub symbol now
        receiverCount).returned = false ∧
      (publish_raw_data defaultThrottleInterval true lastPub symbol now
        receiverCount).published = false ∧
      (publish_raw_data defaultThrottleInterval true lastPub symbol now
        receiverCount).lastPublishTime = lastPub) ∧
    (defaultThrottleInterval ≤ now - lastPub symbol →
      (publish_raw_data defaultThrottleInterval true lastPub symbol now
        receiverCount).published = true ∧
      (publish_raw_data defaultThrottleInterval true lastPub symbol now
        receiverCount).lastPublishTime symbol = now ∧
      ∀ s, s ≠ symbol →
        (publish_raw_data defaultThrottleInterval true lastPub symbol now
          receiverCount).lastPublishTime s = lastPub s) := by
  constructor
  · intro h
    unfold publish_raw_data
    rw [if_pos rfl, if_pos h]
    exact ⟨rfl, rfl, rfl⟩
  · intro h
    unfold publish_raw_data
    rw [if_pos rfl, if_neg (not_lt.mpr h)]
    exact ⟨rfl, Function.update_same symbol now lastPub,
      fun s hs => Function.update_noteq hs now lastPub⟩

/-- Witness for the C8 theorem: with all last-publish times at 0, a publish
at time 1/4 is dropped and a publish at time 1/2 goes through. -/
theorem publish_raw_data_throttle_witness :
    ((publish_raw_data defaultThrottleInterval true (fun _ => (0 : ℚ)) 0
        (1 / 4) 3).returned = false ∧
     (publish_raw_data defaultThrottleInterval true (fun _ => (0 : ℚ)) 0
        (1 / 4) 3).published = false ∧
     (publish_raw_data defaultThrottleInterval true (fun _ => (0 : ℚ)) 0
        (1 / 4) 3).lastPublishTime = (fun _ => (0 : ℚ))) ∧
    ((publish_raw_data defaultThrottleInterval true (fun _ => (0 : ℚ)) 0
        (1 / 2) 3).published = true ∧
     (publish_raw_data defaultThrottleInterval true (fun _ => (0 : ℚ)) 0
        (1 / 2) 3).lastPublishTime 0 = 1 / 2 ∧
     ∀ s, s ≠ 0 →
       (publish_raw_data defaultThrottleInterval true (fun _ => (0 : ℚ)) 0
          (1 / 2) 3).lastPublishTime s = (fun _ => (0 : ℚ)) s) :=
  ⟨(publish_raw_data_throttle (fun _ => 0) 0 (1 / 4) 3).1
      (by norm_num [defaultThrottleInterval]),
   (publish_raw_data_throttle (fun _ => 0) 0 (1 / 2) 3).2
      (by norm_num [defaultThrottleInterval])⟩

/-- Embedding of `BrokerWebSocketClient.subscribe_symbol`: the abstract
`_subscribe_symbol_impl` call (modelled as returning either a boolean or a
raised exception of type ε) is wrapped in try/except; every exception is
logged and turned into False, and a boolean result is passed through. -/
def subscribe_symbol {α ε : Type} (impl : α → Except ε Bool) (symbol : α) :
    Bool :=
  match impl symbol with
  | .ok b => b
  | .error _ => false

/-- Embedding of `BrokerWebSocketClient.unsubscribe_symbol`, with the same
try/except wrapper around `_unsubscribe_symbol_impl`. -/
def unsubscribe_symbol {α ε : Type} (impl : α → Except ε Bool) (symbol : α) :
    Bool :=
  match impl symbol with
  | .ok b => b
  | .error _ => false

/-- C9: for every symbol and every behaviour of the underlying broker
implementation, `subscribe_symbol` and `unsubscribe_symbol` are total and
never propagate an exception: an implementation that raises yields False,
and an implementation that returns a boolean has that boolean passed
through unchanged. -/
theorem subscribe_symbol_never_raises :
    (∀ (α ε : Type) (impl : α → Except ε Bool) (symbol : α) (e : ε),
      impl symbol = Except.error e → subscribe_symbol impl symbol = false) ∧
    (∀ (α ε : Type) (impl : α → Except ε Bool) (symbol : α) (b : Bool),
      impl symbol = Except.ok b → subscribe_symbol impl symbol = b) ∧
    (∀ (α ε : Type) (impl : α → Except ε Bool) (symbol : α) (e : ε),
      impl symbol = Except.error e →
        unsubscribe_symbol impl symbol = false) ∧
    (∀ (α ε : Type) (impl : α → Except ε Bool) (symbol : α) (b : Bool),
      impl symbol = Except.ok b → unsubscribe_symbol impl symbol = b) := by
  refine ⟨?_, ?_, ?_, ?_⟩
  · intro α ε impl symbol e h
    unfold subscribe_symbol
    rw [h]
  · intro α ε impl symbol b h
    unfold subscribe_symbol
    rw [h]
  · intro α ε impl symbol e h
    unfold unsubscribe_symbol
    rw [h]
  · intro α ε impl symbol b h
    unfold unsubscribe_symbol
    rw [h]

/-- Witness for the C9 theorem: a raising implementation and a returning
implementation, both at symbol 0. -/
theorem subscribe_symbol_never_raises_witness :
    subscribe_symbol (fun _ : ℕ => (Except.error 7 : Except ℕ Bool)) 0 =
      false ∧
    subscribe_symbol (fun _ : ℕ => (Except.ok true : Except ℕ Bool)) 0 =
      true ∧
    unsubscribe_symbol (fun _ : ℕ => (Except.error 7 : Except ℕ Bool)) 0 =
      false ∧
    unsubscribe_symbol (fun _ : ℕ => (Except.ok true : Except ℕ Bool)) 0 =
      true :=
  ⟨subscribe_symbol_never_raises.1 ℕ ℕ _ 0 7 rfl,
   subscribe_symbol_never_raises.2.1 ℕ ℕ _ 0 true rfl,
   subscribe_symbol_never_raises.2.2.1 ℕ ℕ _ 0 7 rfl,
   subscribe_symbol_never_raises.2.2.2 ℕ ℕ _ 0 true rfl⟩

/-- The record returned by `BrokerWebSocketClient.get_ping_stats`; the two
timestamps are carried as optional opaque values of type τ (the isoformat
strings, None before the first ping/pong). -/
structure PingStats (τ : Type) where
  ping_count : ℕ
  pong_count : ℕ
  ping_success_rate : ℚ
  last_ping_time : Option τ
  last_pong_time : Option τ
  ping_interval : ℚ
  ping_timeout : ℚ

/-- Embedding of `BrokerWebSocketClient.get_ping_stats`: a total snapshot
of the ping statistics whose success rate is
`pong_count / ping_count * 100` when `ping_count > 0` and 0 otherwise (the
division is guarded, so the record is produced without raising for every
state of the link). -/
def get_ping_stats {τ : Type} (pingCount pongCount : ℕ)
    (lastPing lastPong : Option τ) (pingInterval pingTimeout : ℚ) :
    PingStats τ :=
  { ping_count := pingCount,
    pong_count := pongCount,
    ping_success_rate :=
      if 0 < pingCount then (pongCount : ℚ) / (pingCount : ℚ) * 100 else 0,
    last_ping_time := lastPing,
    last_pong_time := lastPong,
    ping_interval := pingInterval,
    ping_timeout := pingTimeout }

/-- C10: `get_ping_stats` is total: it returns the full record for every
link state; with `ping_count = 0` the reported success rate is 0 (the
division by `ping_count` is guarded), and with `ping_count > 0` it equals
`pong_count / ping_count * 100`. -/
theorem get_ping_stats_total (pc qc : ℕ) (lp lq : Option ℕ)
    (pInterval pTimeout : ℚ) :
    (get_ping_stats pc qc lp lq pInterval pTimeout).ping_count = pc ∧
    (get_ping_stats pc qc lp lq pInterval pTimeout).pong_count = qc ∧
    (get_ping_stats pc qc lp lq pInterval pTimeout).ping_interval =
      pInterval ∧
    (get_ping_stats pc qc lp lq pInterval pTimeout).ping_timeout =
      pTimeout ∧
    (pc = 0 →
      (get_ping_stats pc qc lp lq pInterval pTimeout).ping_success_rate =
        0) ∧
    (0 < pc →
      (get_ping_stats pc qc lp lq pInterval pTimeout).ping_success_rate =
        (qc : ℚ) / (pc : ℚ) * 100) := by
  refine ⟨rfl, rfl, rfl, rfl, ?_, ?_⟩
  · intro h
    unfold get_ping_stats
    dsimp only
    rw [if_neg (by omega)]
  · intro h
    unfold get_ping_stats
    dsimp only
    rw [if_pos h]

/-- Witness for the C10 theorem: a link that never pinged reports a 0
success rate, and a link with 4 pings and 3 pongs reports 3/4 of 100. -/
theorem get_ping_stats_total_witness :
    (get_ping_stats 0 7 (none : Option ℕ) none 1 10).ping_success_rate =
      0 ∧
    (get_ping_stats 4 3 (none : Option ℕ) none 1 10).ping_success_rate =
      ((3 : ℕ) : ℚ) / ((4 : ℕ) : ℚ) * 100 :=
  ⟨(get_ping_stats_total 0 7 none none 1 10).2.2.2.2.1 rfl,
   (get_ping_stats_total 4 3 none none 1 10).2.2.2.2.2 (by omega)⟩
